import Mathlib

/-!
Verification of the light-entity capability mapping core
(`custom_components/xiaomi_home/light.py`, class `Light`).

The Python class is embedded shallowly:
* `MIoTSpecProperty` models the property descriptors consumed by
  `Light.__init__` (a `value_range` that is a `{min, max}` dict becomes
  `Option (Int × Int)`; a `value_list` of `{value, description}` records
  becomes `Option (List (Int × String))`, where `none` models a non-list
  value such as Python `None` and `some []` models an empty list).
* `LightState` models the entity attributes the constructor mutates,
  plus an explicit list of emitted error-log events.
* `light_init_step` is the body of the `for prop in entity_data.props`
  loop; `scanProps` folds it; `resolveProps` adds the post-loop
  color-mode fallback.  Python dicts are modelled as association lists
  with insertion-order semantics (`dictInsert` / `dictOfList`).
* Read accessors and `async_turn_on` / `async_turn_off` are modelled as
  functions over the state together with oracles for the external
  collaborators (`get_prop_value`, `set_property_async`,
  `brightness_to_value`, `value_to_brightness`); a Python exception is
  modelled as `none` / `.error`.
-/

/-- Device property descriptor as consumed by `Light.__init__`. -/
structure MIoTSpecProperty where
  name : String
  format_ : String
  /-- `value_range` when it is a `{min, max}` dict; `none` otherwise. -/
  value_range : Option (Int × Int)
  /-- `value_list` when it is a Python list (possibly empty); `none` otherwise. -/
  value_list : Option (List (Int × String))
deriving DecidableEq, Repr

/-- Home Assistant color modes used by `light.py`. -/
inductive ColorMode where
  | COLOR_TEMP
  | RGB
  | BRIGHTNESS
  | ONOFF
deriving DecidableEq, Repr

/-- Error-log events emitted by `Light.__init__` via `_LOGGER.error`. -/
inductive LogEvent where
  | invalid_brightness
  | invalid_color_temp
  | invalid_mode
deriving DecidableEq, Repr

/-- The entity attributes `Light.__init__` assigns, with an explicit log. -/
structure LightState where
  prop_on : Option MIoTSpecProperty
  prop_brightness : Option MIoTSpecProperty
  prop_color_temp : Option MIoTSpecProperty
  prop_color : Option MIoTSpecProperty
  prop_mode : Option MIoTSpecProperty
  brightness_scale : Option (Int × Int)
  mode_list : Option (List (Int × String))
  supported_color_modes : Finset ColorMode
  color_mode : Option ColorMode
  effect_list : Option (List String)
  effect_feature : Bool
  min_color_temp_kelvin : Option Int
  max_color_temp_kelvin : Option Int
  log : List LogEvent
deriving DecidableEq

/-- The attribute values set before the property loop runs. -/
def initLightState : LightState where
  prop_on := none
  prop_brightness := none
  prop_color_temp := none
  prop_color := none
  prop_mode := none
  brightness_scale := none
  mode_list := none
  supported_color_modes := ∅
  color_mode := none
  effect_list := none
  effect_feature := false
  min_color_temp_kelvin := none
  max_color_temp_kelvin := none
  log := []

/-- Python dict assignment `d[k] = v`: replace in place if the key exists,
else append at the end (insertion order preserved). -/
def dictInsert (d : List (Int × String)) (k : Int) (v : String) :
    List (Int × String) :=
  if d.any (fun p => p.1 == k) then
    d.map (fun p => if p.1 == k then (p.1, v) else p)
  else
    d ++ [(k, v)]

/-- Python dict built from a sequence of key/value pairs (as in the dict
comprehension `{item['value']: item['description'] for item in value_list}`). -/
def dictOfList (l : List (Int × String)) : List (Int × String) :=
  l.foldl (fun d p => dictInsert d p.1 p.2) []

/-- Python `range(mn, mx)`: the integers of `[mn, mx)` in increasing order. -/
def pyRange (mn mx : Int) : List Int :=
  (List.range (mx - mn).toNat).map (fun i : Nat => mn + (i : Int))

/-- The dense mode table synthesized by the `mode` branch from a value range:
`for value in range(min, max): mode_list[value] = f'{value}'`. -/
def synthTable (mn mx : Int) : List (Int × String) :=
  dictOfList ((pyRange mn mx).map (fun v => (v, toString v)))

/-- One iteration of the `for prop in entity_data.props` loop of
`Light.__init__` (the four name-dispatched branches). -/
def light_init_step (s : LightState) (prop : MIoTSpecProperty) : LightState :=
  -- if prop.name == 'on'
  let s :=
    if prop.name = "on" then
      { s with prop_on := some prop }
    else s
  -- if prop.name == 'brightness'
  let s :=
    if prop.name = "brightness" then
      match prop.value_range with
      | some (mn, mx) =>
        { s with brightness_scale := some (mn, mx),
                 prop_brightness := some prop }
      | none =>
        match s.mode_list, prop.value_list with
        | none, some l =>
          if l ≠ [] then
            let ml := dictOfList l
            { s with mode_list := some ml,
                     effect_list := some (ml.map Prod.snd),
                     effect_feature := true,
                     prop_mode := some prop }
          else
            { s with log := s.log ++ [LogEvent.invalid_brightness] }
        | _, _ =>
          { s with log := s.log ++ [LogEvent.invalid_brightness] }
    else s
  -- if prop.name == 'color-temperature'
  let s :=
    if prop.name = "color-temperature" then
      match prop.value_range with
      | none =>
        { s with log := s.log ++ [LogEvent.invalid_color_temp] }
      | some (mn, mx) =>
        { s with min_color_temp_kelvin := some mn,
                 max_color_temp_kelvin := some mx,
                 supported_color_modes :=
                   insert ColorMode.COLOR_TEMP s.supported_color_modes,
                 color_mode := some ColorMode.COLOR_TEMP,
                 prop_color_temp := some prop }
    else s
  -- if prop.name == 'color'
  let s :=
    if prop.name = "color" then
      { s with supported_color_modes :=
                 insert ColorMode.RGB s.supported_color_modes,
               color_mode := some ColorMode.RGB,
               prop_color := some prop }
    else s
  -- if prop.name == 'mode'
  if prop.name = "mode" then
    let ml : Option (List (Int × String)) :=
      match prop.value_list with
      | some l =>
        if l ≠ [] then some (dictOfList l)
        else
          match prop.value_range with
          | some (mn, mx) => some (synthTable mn mx)
          | none => none
      | none =>
        match prop.value_range with
        | some (mn, mx) => some (synthTable mn mx)
        | none => none
    match ml with
    | some t =>
      -- `if mode_list:` — a `None` or empty dict is falsy
      if t ≠ [] then
        { s with mode_list := some t,
                 effect_list := some (t.map Prod.snd),
                 effect_feature := true,
                 prop_mode := some prop }
      else
        { s with log := s.log ++ [LogEvent.invalid_mode] }
    | none =>
      { s with log := s.log ++ [LogEvent.invalid_mode] }
  else s

/-- The property loop of `Light.__init__`. -/
def scanProps (props : List MIoTSpecProperty) : LightState :=
  props.foldl light_init_step initLightState

/-- `Light.__init__`: the property loop followed by the color-mode fallback. -/
def resolveProps (props : List MIoTSpecProperty) : LightState :=
  let s := scanProps props
  if s.supported_color_modes = ∅ then
    match s.prop_brightness with
    | some _ =>
      { s with supported_color_modes :=
                 insert ColorMode.BRIGHTNESS s.supported_color_modes,
               color_mode := some ColorMode.BRIGHTNESS }
    | none =>
      match s.prop_on with
      | some _ =>
        { s with supported_color_modes :=
                   insert ColorMode.ONOFF s.supported_color_modes,
                 color_mode := some ColorMode.ONOFF }
      | none => s
  else s

/-- A raw device value as returned by the external `get_prop_value`
accessor, restricted to the shapes the power property takes.  A Python
`bool` is also an `int` (`True == 1`, `False == 0`). -/
inductive RawValue where
  | int (n : Int)
  | bool (b : Bool)
deriving DecidableEq, Repr

/-- `Light.is_on`, as a function of the raw power value.
`isinstance(value_on, int)` matches both Python ints and bools; for a
bool `b`, `b == 1` is `b` itself, so the bool case passes through. -/
def is_on (value_on : Option RawValue) : Option Bool :=
  match value_on with
  | none => none
  | some (.int n) => some (decide (n = 1))
  | some (.bool b) => some b

/-- `Light.brightness`, as a function of the state, a read oracle `g`
(`get_prop_value` restricted to present properties) and the external
conversion `vtb` (`homeassistant.util.color.value_to_brightness`).
`.error` models the exception raised when the conversion is invoked
with an absent (`None`) brightness scale.

Modelled from the spec: `get_prop_value` itself is not under `src/`;
per §6 the read accessor returns "raw value or absent", and an absent
property reference can only read as absent, hence the `Option.bind`. -/
def brightness (s : LightState)
    (g : MIoTSpecProperty → Option Int)
    (vtb : (Int × Int) → Int → Int) : Except Unit (Option Int) :=
  match s.prop_brightness.bind g with
  | none => .ok none
  | some v =>
    match s.brightness_scale with
    | none => .error ()
    | some sc => .ok (some (vtb sc v))

/-- The packing `(r << 16) | (g << 8) | b` inlined in
`Light.async_turn_on`. -/
def fromRGBTriple (r g b : Nat) : Nat :=
  (r <<< 16) ||| (g <<< 8) ||| b

/-- The decomposition by shifts and masks inlined in `Light.rgb_color`. -/
def toRGBTriple (rgb : Nat) : Nat × Nat × Nat :=
  ((rgb >>> 16) &&& 0xFF, (rgb >>> 8) &&& 0xFF, rgb &&& 0xFF)

/-- `Light.__get_mode_description`. -/
def get_mode_description (s : LightState) (key : Int) : Option String :=
  match s.mode_list with
  | none => none
  | some ml => (ml.find? (fun p => p.1 = key)).map Prod.snd

/-- `Light.__get_mode_value`: linear scan over the mode table, first
matching description wins. -/
def get_mode_value (s : LightState) (description : String) : Option Int :=
  match s.mode_list with
  | none => none
  | some ml => (ml.find? (fun p => p.2 = description)).map Prod.fst

/-- A value passed to the external `set_property_async` write accessor.
`absent` models Python `None` (an unresolved effect description). -/
inductive WriteValue where
  | int (n : Int)
  | bool (b : Bool)
  | absent
deriving DecidableEq, Repr

/-- The keyword arguments of `Light.async_turn_on` (a write intent). -/
structure WriteIntent where
  brightness : Option Int
  color_temp_kelvin : Option Int
  rgb_color : Option (Nat × Nat × Nat)
  effect : Option String
deriving DecidableEq, Repr

/-- The intent with no attribute set (empty `kwargs`). -/
def emptyIntent : WriteIntent where
  brightness := none
  color_temp_kelvin := none
  rgb_color := none
  effect := none

/-- What a completed `async_turn_on` call did: the writes issued in
order (property reference and value as passed to `set_property_async`),
the returned boolean, and the resulting `_attr_color_mode`. -/
structure TurnOnResult where
  writes : List (Option MIoTSpecProperty × WriteValue)
  result : Bool
  color_mode : Option ColorMode
deriving DecidableEq, Repr

/-- `Light.async_turn_on`, as a function of the state, the intent, the
external conversion `btv`
(`homeassistant.util.color.brightness_to_value`) and a write oracle `w`
(`set_property_async`).  `none` models an exception escaping the call:
attribute access `self._prop_on.format_` on an absent power property,
or `brightness_to_value` invoked with an absent scale. -/
def async_turn_on (s : LightState) (kwargs : WriteIntent)
    (btv : (Int × Int) → Int → Int)
    (w : Option MIoTSpecProperty → WriteValue → Bool) :
    Option TurnOnResult :=
  match s.prop_on with
  | none => none
  | some pon =>
    -- value_on = True if self._prop_on.format_ == 'bool' else 1
    let value_on : WriteValue :=
      if pon.format_ = "bool" then .bool true else .int 1
    let st : TurnOnResult :=
      ⟨[(s.prop_on, value_on)], w s.prop_on value_on, s.color_mode⟩
    -- if ATTR_BRIGHTNESS in kwargs
    let st1 : Option TurnOnResult :=
      match kwargs.brightness with
      | none => some st
      | some bv =>
        match s.brightness_scale with
        | none => none
        | some sc =>
          let dv : WriteValue := .int (btv sc bv)
          some ⟨st.writes ++ [(s.prop_brightness, dv)],
                w s.prop_brightness dv, st.color_mode⟩
    match st1 with
    | none => none
    | some st =>
      -- if ATTR_COLOR_TEMP_KELVIN in kwargs
      let st : TurnOnResult :=
        match kwargs.color_temp_kelvin with
        | none => st
        | some ct =>
          ⟨st.writes ++ [(s.prop_color_temp, .int ct)],
           w s.prop_color_temp (.int ct), some ColorMode.COLOR_TEMP⟩
      -- if ATTR_RGB_COLOR in kwargs
      let st : TurnOnResult :=
        match kwargs.rgb_color with
        | none => st
        | some (r, gc, bc) =>
          let rgb : WriteValue := .int (Int.ofNat (fromRGBTriple r gc bc))
          ⟨st.writes ++ [(s.prop_color, rgb)],
           w s.prop_color rgb, some ColorMode.RGB⟩
      -- if ATTR_EFFECT in kwargs
      let st : TurnOnResult :=
        match kwargs.effect with
        | none => st
        | some desc =>
          let mv : WriteValue :=
            match get_mode_value s desc with
            | some k => .int k
            | none => .absent
          ⟨st.writes ++ [(s.prop_mode, mv)],
           w s.prop_mode mv, st.color_mode⟩
      some st

/-- `Light.async_turn_off`: writes only the power property; `none`
models the attribute error on an absent power property. -/
def async_turn_off (s : LightState)
    (w : Option MIoTSpecProperty → WriteValue → Bool) : Option Bool :=
  match s.prop_on with
  | none => none
  | some pon =>
    let value_on : WriteValue :=
      if pon.format_ = "bool" then .bool false else .int 0
    some (w s.prop_on value_on)

/-- The write sequence prescribed by the spec, §4.3: the power-on value
first, then the brightness, color-temperature, RGB and effect writes,
in that fixed order, exactly for the attributes the intent specifies. -/
def specWriteSequence (s : LightState) (kwargs : WriteIntent)
    (btv : (Int × Int) → Int → Int) :
    List (Option MIoTSpecProperty × WriteValue) :=
  [(s.prop_on,
    match s.prop_on with
    | some p => if p.format_ = "bool" then .bool true else .int 1
    | none => .absent)]
  ++ (match kwargs.brightness, s.brightness_scale with
      | some bv, some sc => [(s.prop_brightness, .int (btv sc bv))]
      | _, _ => [])
  ++ (match kwargs.color_temp_kelvin with
      | some ct => [(s.prop_color_temp, .int ct)]
      | none => [])
  ++ (match kwargs.rgb_color with
      | some (r, gc, bc) =>
        [(s.prop_color, .int (Int.ofNat (fromRGBTriple r gc bc)))]
      | none => [])
  ++ (match kwargs.effect with
      | some desc =>
        [(s.prop_mode,
          match get_mode_value s desc with
          | some k => .int k
          | none => .absent)]
      | none => [])

/-! ### Helper lemmas -/

theorem and_255_eq_mod (x : Nat) : x &&& 255 = x % 256 := by
  have h := Nat.and_pow_two_sub_one_eq_mod x 8
  norm_num at h
  exact h

theorem fromRGBTriple_eq (r g b : Nat) (hg : g ≤ 255) (hb : b ≤ 255) :
    fromRGBTriple r g b = r * 65536 + g * 256 + b := by
  have hb8 : b < 2 ^ 8 := lt_of_le_of_lt hb (by norm_num)
  have hgb : 2 ^ 8 * g + b < 2 ^ 16 := by
    have h1 : 2 ^ 8 * g ≤ 2 ^ 8 * 255 := Nat.mul_le_mul_left _ hg
    norm_num at h1 ⊢
    omega
  calc fromRGBTriple r g b
      = (r <<< 16) ||| ((g <<< 8) ||| b) := by
        rw [fromRGBTriple, Nat.or_assoc]
    _ = (r * 2 ^ 16) ||| ((g * 2 ^ 8) ||| b) := by
        rw [Nat.shiftLeft_eq, Nat.shiftLeft_eq]
    _ = (r * 2 ^ 16) ||| (2 ^ 8 * g + b) := by
        rw [Nat.mul_comm g (2 ^ 8), ← Nat.mul_add_lt_is_or hb8 g]
    _ = 2 ^ 16 * r + (2 ^ 8 * g + b) := by
        rw [Nat.mul_comm r (2 ^ 16), ← Nat.mul_add_lt_is_or hgb r]
    _ = r * 65536 + g * 256 + b := by ring

/-- **C3**: packing an RGB triple as `async_turn_on` does and decomposing
it as the `rgb_color` property does round-trips exactly on `[0,255]^3`. -/
theorem C3_rgb_round_trip (r g b : Nat)
    (hr : r ≤ 255) (hg : g ≤ 255) (hb : b ≤ 255) :
    toRGBTriple (fromRGBTriple r g b) = (r, g, b) := by
  rw [fromRGBTriple_eq r g b hg hb]
  unfold toRGBTriple
  have h16 : (2 : Nat) ^ 16 = 65536 := by norm_num
  have h8 : (2 : Nat) ^ 8 = 256 := by norm_num
  simp only [Prod.mk.injEq]
  refine ⟨?_, ?_, ?_⟩
  · rw [and_255_eq_mod, Nat.shiftRight_eq_div_pow, h16]
    omega
  · rw [and_255_eq_mod, Nat.shiftRight_eq_div_pow, h8]
    omega
  · rw [and_255_eq_mod]
    omega

theorem C3_rgb_round_trip_witness :
    toRGBTriple (fromRGBTriple 12 200 7) = (12, 200, 7) :=
  C3_rgb_round_trip 12 200 7 (by decide) (by decide) (by decide)

theorem dictInsert_keys (d : List (Int × String)) (k : Int) (v : String)
    (k' : Int) :
    k' ∈ (dictInsert d k v).map Prod.fst ↔ k' ∈ d.map Prod.fst ∨ k' = k := by
  unfold dictInsert
  by_cases h : d.any (fun p => p.1 == k) = true
  · simp only [h, if_true]
    have hk : k ∈ d.map Prod.fst := by
      rcases List.any_eq_true.mp h with ⟨p, hp, he⟩
      simp only [beq_iff_eq] at he
      exact List.mem_map.mpr ⟨p, hp, he⟩
    have keys_eq :
        (d.map (fun p => if p.1 == k then (p.1, v) else p)).map Prod.fst
          = d.map Prod.fst := by
      rw [List.map_map]
      apply List.map_congr_left
      intro p _
      by_cases hpk : p.1 = k <;> simp [hpk]
    rw [keys_eq]
    constructor
    · exact Or.inl
    · rintro (h' | rfl)
      · exact h'
      · exact hk
  · simp only [h, if_false, List.map_append, List.mem_append]
    simp

theorem dictInsert_vals (P : Int × String → Prop) (d : List (Int × String))
    (k : Int) (v : String)
    (hd : ∀ p ∈ d, P p) (hkv : P (k, v)) :
    ∀ p ∈ dictInsert d k v, P p := by
  intro p hp
  unfold dictInsert at hp
  by_cases h : d.any (fun q => q.1 == k) = true
  · simp only [h, if_true] at hp
    rcases List.mem_map.mp hp with ⟨q, hq, rfl⟩
    by_cases hqk : q.1 == k
    · have : q.1 = k := by simpa using hqk
      simp only [hqk, if_true]
      rw [this]
      exact hkv
    · simp only [hqk, if_false]
      exact hd q hq
  · simp only [h, if_false] at hp
    rcases List.mem_append.mp hp with hp' | hp'
    · exact hd p hp'
    · have : p = (k, v) := by simpa using hp'
      rw [this]
      exact hkv

theorem dictInsert_ne_nil (d : List (Int × String)) (k : Int) (v : String) :
    dictInsert d k v ≠ [] := by
  unfold dictInsert
  by_cases h : d.any (fun p => p.1 == k) = true
  · simp only [h, if_true]
    intro hmap
    rcases List.any_eq_true.mp h with ⟨p, hp, _⟩
    rw [List.map_eq_nil_iff] at hmap
    rw [hmap] at hp
    exact List.not_mem_nil p hp
  · simp [h]

theorem foldl_dictInsert_keys (l : List (Int × String))
    (acc : List (Int × String)) (k : Int) :
    k ∈ (l.foldl (fun d p => dictInsert d p.1 p.2) acc).map Prod.fst ↔
      k ∈ acc.map Prod.fst ∨ k ∈ l.map Prod.fst := by
  induction l generalizing acc with
  | nil => simp
  | cons p t ih =>
    simp only [List.foldl_cons]
    rw [ih]
    rw [dictInsert_keys]
    simp only [List.map_cons, List.mem_cons]
    tauto

theorem dictOfList_keys (l : List (Int × String)) (k : Int) :
    k ∈ (dictOfList l).map Prod.fst ↔ k ∈ l.map Prod.fst := by
  unfold dictOfList
  rw [foldl_dictInsert_keys]
  simp

theorem foldl_dictInsert_vals (P : Int × String → Prop)
    (l : List (Int × String)) (acc : List (Int × String))
    (hacc : ∀ p ∈ acc, P p) (hl : ∀ p ∈ l, P p) :
    ∀ p ∈ l.foldl (fun d p => dictInsert d p.1 p.2) acc, P p := by
  induction l generalizing acc with
  | nil => exact hacc
  | cons q t ih =>
    simp only [List.foldl_cons]
    refine ih _ ?_ (fun p hp => hl p (List.mem_cons_of_mem _ hp))
    exact dictInsert_vals P acc q.1 q.2 hacc
      (by simpa using hl q (List.mem_cons_self _ _))

theorem dictOfList_vals (P : Int × String → Prop) (l : List (Int × String))
    (hl : ∀ p ∈ l, P p) : ∀ p ∈ dictOfList l, P p :=
  foldl_dictInsert_vals P l [] (by simp) hl

theorem foldl_dictInsert_ne_nil (l : List (Int × String))
    (acc : List (Int × String)) (hacc : acc ≠ []) :
    l.foldl (fun d p => dictInsert d p.1 p.2) acc ≠ [] := by
  induction l generalizing acc with
  | nil => exact hacc
  | cons q t ih =>
    simp only [List.foldl_cons]
    exact ih _ (dictInsert_ne_nil acc q.1 q.2)

theorem dictOfList_ne_nil (l : List (Int × String)) (h : l ≠ []) :
    dictOfList l ≠ [] := by
  cases l with
  | nil => exact absurd rfl h
  | cons q t =>
    unfold dictOfList
    simp only [List.foldl_cons]
    exact foldl_dictInsert_ne_nil t _ (dictInsert_ne_nil [] q.1 q.2)

theorem pyRange_mem (mn mx k : Int) :
    k ∈ pyRange mn mx ↔ mn ≤ k ∧ k < mx := by
  unfold pyRange
  simp only [List.mem_map, List.mem_range]
  constructor
  · rintro ⟨i, hi, rfl⟩
    omega
  · rintro ⟨h1, h2⟩
    exact ⟨(k - mn).toNat, by omega, by omega⟩

theorem synthTable_keys (mn mx k : Int) :
    k ∈ (synthTable mn mx).map Prod.fst ↔ mn ≤ k ∧ k < mx := by
  unfold synthTable
  rw [dictOfList_keys]
  rw [List.map_map]
  have : (Prod.fst ∘ fun v : Int => (v, toString v)) = id := rfl
  rw [this, List.map_id]
  exact pyRange_mem mn mx k

theorem synthTable_vals (mn mx : Int) :
    ∀ p ∈ synthTable mn mx, p.2 = toString p.1 := by
  unfold synthTable
  apply dictOfList_vals
  intro p hp
  rcases List.mem_map.mp hp with ⟨v, _, rfl⟩
  rfl

theorem synthTable_ne_nil (mn mx : Int) (h : mn < mx) :
    synthTable mn mx ≠ [] := by
  intro hnil
  have := (synthTable_keys mn mx mn).mpr ⟨le_refl mn, h⟩
  rw [hnil] at this
  simp at this

theorem light_init_step_mode_vl (s : LightState) (p : MIoTSpecProperty)
    (l : List (Int × String))
    (hname : p.name = "mode") (hl : p.value_list = some l) (hne : l ≠ []) :
    light_init_step s p =
      { s with mode_list := some (dictOfList l),
               effect_list := some ((dictOfList l).map Prod.snd),
               effect_feature := true,
               prop_mode := some p } := by
  have hd := dictOfList_ne_nil l hne
  simp [light_init_step, hname, hl, hne, hd]

theorem light_init_step_mode_range (s : LightState) (p : MIoTSpecProperty)
    (mn mx : Int)
    (hname : p.name = "mode")
    (hl : p.value_list = none ∨ p.value_list = some [])
    (hr : p.value_range = some (mn, mx)) (hlt : mn < mx) :
    light_init_step s p =
      { s with mode_list := some (synthTable mn mx),
               effect_list := some ((synthTable mn mx).map Prod.snd),
               effect_feature := true,
               prop_mode := some p } := by
  have hd := synthTable_ne_nil mn mx hlt
  rcases hl with hl | hl <;> simp [light_init_step, hname, hl, hr, hd]

theorem light_init_step_ct_invalid (s : LightState) (p : MIoTSpecProperty)
    (hname : p.name = "color-temperature") (hr : p.value_range = none) :
    light_init_step s p =
      { s with log := s.log ++ [LogEvent.invalid_color_temp] } := by
  simp [light_init_step, hname, hr]

theorem light_init_step_brightness_taken (s : LightState)
    (p : MIoTSpecProperty) (t : List (Int × String))
    (hname : p.name = "brightness") (hr : p.value_range = none)
    (ht : s.mode_list = some t) :
    light_init_step s p =
      { s with log := s.log ++ [LogEvent.invalid_brightness] } := by
  simp [light_init_step, hname, hr, ht]

theorem light_init_step_prop_on (s : LightState) (p : MIoTSpecProperty)
    (h : p.name ≠ "on") : (light_init_step s p).prop_on = s.prop_on := by
  unfold light_init_step
  simp only [if_neg h]
  by_cases h2 : p.name = "brightness" <;>
    by_cases h3 : p.name = "color-temperature" <;>
    by_cases h4 : p.name = "color" <;>
    by_cases h5 : p.name = "mode" <;>
    simp_all <;>
    (repeat' split) <;>
    simp_all

theorem light_init_step_bright_inv (s : LightState) (p : MIoTSpecProperty)
    (h : s.prop_brightness = none ↔ s.brightness_scale = none) :
    ((light_init_step s p).prop_brightness = none ↔
      (light_init_step s p).brightness_scale = none) := by
  unfold light_init_step
  by_cases h1 : p.name = "on" <;>
    by_cases h2 : p.name = "brightness" <;>
    by_cases h3 : p.name = "color-temperature" <;>
    by_cases h4 : p.name = "color" <;>
    by_cases h5 : p.name = "mode" <;>
    simp_all <;>
    (repeat' split) <;>
    simp_all

theorem foldl_prop_on (l : List MIoTSpecProperty) (s : LightState)
    (h : ∀ p ∈ l, p.name ≠ "on") :
    (l.foldl light_init_step s).prop_on = s.prop_on := by
  induction l generalizing s with
  | nil => rfl
  | cons p t ih =>
    simp only [List.foldl_cons]
    rw [ih _ (fun q hq => h q (List.mem_cons_of_mem _ hq)),
        light_init_step_prop_on s p (h p (List.mem_cons_self _ _))]

theorem foldl_bright_inv (l : List MIoTSpecProperty) (s : LightState)
    (h : s.prop_brightness = none ↔ s.brightness_scale = none) :
    ((l.foldl light_init_step s).prop_brightness = none ↔
      (l.foldl light_init_step s).brightness_scale = none) := by
  induction l generalizing s with
  | nil => exact h
  | cons p t ih =>
    simp only [List.foldl_cons]
    exact ih _ (light_init_step_bright_inv s p h)

theorem scanProps_bright_inv (props : List MIoTSpecProperty) :
    ((scanProps props).prop_brightness = none ↔
      (scanProps props).brightness_scale = none) :=
  foldl_bright_inv props initLightState (by simp [initLightState])

theorem resolveProps_prop_on (props : List MIoTSpecProperty) :
    (resolveProps props).prop_on = (scanProps props).prop_on := by
  simp only [resolveProps]
  (repeat' split) <;> rfl

theorem resolveProps_prop_brightness (props : List MIoTSpecProperty) :
    (resolveProps props).prop_brightness = (scanProps props).prop_brightness := by
  simp only [resolveProps]
  (repeat' split) <;> rfl

theorem resolveProps_brightness_scale (props : List MIoTSpecProperty) :
    (resolveProps props).brightness_scale = (scanProps props).brightness_scale := by
  simp only [resolveProps]
  (repeat' split) <;> rfl

theorem resolveProps_bright_inv (props : List MIoTSpecProperty) :
    ((resolveProps props).prop_brightness = none ↔
      (resolveProps props).brightness_scale = none) := by
  rw [resolveProps_prop_brightness, resolveProps_brightness_scale]
  exact scanProps_bright_inv props

/-- **C8**: a `color-temperature` property whose `value_range` is not a
dict never raises, does not add the color-temp mode, records no Kelvin
range and does not set the color-temp property reference, appends
exactly one log event, and leaves the processing of the remaining
properties unaffected. -/
theorem C8_malformed_color_temp (p : MIoTSpecProperty)
    (l1 l2 : List MIoTSpecProperty)
    (hname : p.name = "color-temperature") (hr : p.value_range = none) :
    (∀ s : LightState, light_init_step s p =
      { s with log := s.log ++ [LogEvent.invalid_color_temp] }) ∧
    scanProps (l1 ++ p :: l2) =
      List.foldl light_init_step
        { scanProps l1 with
            log := (scanProps l1).log ++ [LogEvent.invalid_color_temp] } l2 := by
  have hstep := fun s => light_init_step_ct_invalid s p hname hr
  refine ⟨hstep, ?_⟩
  unfold scanProps
  rw [List.foldl_append, List.foldl_cons, hstep]

theorem C8_malformed_color_temp_witness :
    (∀ s : LightState,
      light_init_step s ⟨"color-temperature", "int", none, none⟩ =
        { s with log := s.log ++ [LogEvent.invalid_color_temp] }) ∧
    scanProps ([] ++ ⟨"color-temperature", "int", none, none⟩ :: []) =
      List.foldl light_init_step
        { scanProps [] with
            log := (scanProps []).log ++ [LogEvent.invalid_color_temp] } [] :=
  C8_malformed_color_temp ⟨"color-temperature", "int", none, none⟩ [] []
    (by decide) (by decide)

/-- **C5**: a `mode` property with no non-empty value list but with a
value range `{min, max}` (here with `min < max`, so that the synthesized
dict is non-empty and is installed) yields a mode table whose keys are
exactly the integers of `[min, max)` — inclusive of `min`, exclusive of
`max` — each mapped to its decimal-string form. -/
theorem C5_mode_range_synth (s : LightState) (p : MIoTSpecProperty)
    (mn mx : Int)
    (hname : p.name = "mode")
    (hl : p.value_list = none ∨ p.value_list = some [])
    (hr : p.value_range = some (mn, mx)) (hlt : mn < mx) :
    ∃ t, (light_init_step s p).mode_list = some t ∧
      (∀ k : Int, k ∈ t.map Prod.fst ↔ mn ≤ k ∧ k < mx) ∧
      (∀ q ∈ t, q.2 = toString q.1) := by
  refine ⟨synthTable mn mx, ?_, fun k => synthTable_keys mn mx k,
    synthTable_vals mn mx⟩
  rw [light_init_step_mode_range s p mn mx hname hl hr hlt]

theorem C5_mode_range_synth_witness :
    ∃ t, (light_init_step initLightState
            ⟨"mode", "int", some (2, 5), none⟩).mode_list = some t ∧
      (∀ k : Int, k ∈ t.map Prod.fst ↔ 2 ≤ k ∧ k < 5) ∧
      (∀ q ∈ t, q.2 = toString q.1) :=
  C5_mode_range_synth initLightState ⟨"mode", "int", some (2, 5), none⟩ 2 5
    (by decide) (Or.inl (by decide)) (by decide) (by decide)

/-- **C1** as stated is false on the code: with a brightness value-list
first (installing table `{0: "A"}`) and a `mode` property with a value
list second, the mode-derived table `{1: "B"}` overwrites the
brightness-derived one instead of being a no-op. -/
theorem C1_counterexample :
    (resolveProps
      [⟨"brightness", "int", none, some [(0, "A")]⟩,
       ⟨"mode", "int", none, some [(1, "B")]⟩]).mode_list = some [(1, "B")] ∧
    ¬ (resolveProps
      [⟨"brightness", "int", none, some [(0, "A")]⟩,
       ⟨"mode", "int", none, some [(1, "B")]⟩]).mode_list
        = some [(0, "A")] := by
  constructor <;> decide

/-- **C1** (amended): between brightness-derived and mode-derived tables
the mode property wins regardless of input order: a `mode` property with
a non-empty value list always installs its own table — overwriting an
existing (e.g. brightness-derived) one — and marks effect capability;
a brightness value-list encountered when a mode table already exists is
logged invalid and changes nothing (in particular it does not mark
effect capability). -/
theorem C1_mode_table_overwrites (s s' : LightState)
    (p b : MIoTSpecProperty) (l t : List (Int × String))
    (hp : p.name = "mode") (hl : p.value_list = some l) (hne : l ≠ [])
    (hb : b.name = "brightness") (hbr : b.value_range = none)
    (ht : s'.mode_list = some t) :
    ((light_init_step s p).mode_list = some (dictOfList l) ∧
     (light_init_step s p).effect_feature = true ∧
     (light_init_step s p).prop_mode = some p) ∧
    light_init_step s' b =
      { s' with log := s'.log ++ [LogEvent.invalid_brightness] } := by
  refine ⟨?_, light_init_step_brightness_taken s' b t hb hbr ht⟩
  rw [light_init_step_mode_vl s p l hp hl hne]
  exact ⟨rfl, rfl, rfl⟩

theorem C1_mode_table_overwrites_witness :
    ((light_init_step (scanProps [⟨"brightness", "int", none, some [(0, "A")]⟩])
        ⟨"mode", "int", none, some [(1, "B")]⟩).mode_list
          = some (dictOfList [(1, "B")]) ∧
     (light_init_step (scanProps [⟨"brightness", "int", none, some [(0, "A")]⟩])
        ⟨"mode", "int", none, some [(1, "B")]⟩).effect_feature = true ∧
     (light_init_step (scanProps [⟨"brightness", "int", none, some [(0, "A")]⟩])
        ⟨"mode", "int", none, some [(1, "B")]⟩).prop_mode
          = some ⟨"mode", "int", none, some [(1, "B")]⟩) ∧
    light_init_step (scanProps [⟨"mode", "int", none, some [(1, "B")]⟩])
        ⟨"brightness", "int", none, some [(0, "A")]⟩ =
      { scanProps [⟨"mode", "int", none, some [(1, "B")]⟩] with
          log := (scanProps [⟨"mode", "int", none, some [(1, "B")]⟩]).log
                   ++ [LogEvent.invalid_brightness] } :=
  C1_mode_table_overwrites
    (scanProps [⟨"brightness", "int", none, some [(0, "A")]⟩])
    (scanProps [⟨"mode", "int", none, some [(1, "B")]⟩])
    ⟨"mode", "int", none, some [(1, "B")]⟩
    ⟨"brightness", "int", none, some [(0, "A")]⟩
    [(1, "B")] [(1, "B")]
    (by decide) (by decide) (by decide) (by decide) (by decide) (by decide)

/-- **C9**: for a property sequence with no `on` property, entity
construction still succeeds (with an absent power property reference),
but every `async_turn_on` and `async_turn_off` call raises (attribute
access on the absent power property) instead of degrading to a no-op or
a failure result. -/
theorem C9_no_power_prop (props : List MIoTSpecProperty)
    (h : ∀ p ∈ props, p.name ≠ "on") :
    (resolveProps props).prop_on = none ∧
    (∀ kwargs btv w, async_turn_on (resolveProps props) kwargs btv w = none) ∧
    (∀ w, async_turn_off (resolveProps props) w = none) := by
  have hon : (resolveProps props).prop_on = none := by
    rw [resolveProps_prop_on]
    unfold scanProps
    rw [foldl_prop_on props initLightState h]
    rfl
  exact ⟨hon,
    fun kwargs btv w => by simp [async_turn_on, hon],
    fun w => by simp [async_turn_off, hon]⟩

theorem C9_no_power_prop_witness :
    (resolveProps [⟨"brightness", "int", some (1, 100), none⟩]).prop_on
      = none ∧
    (∀ kwargs btv w,
      async_turn_on (resolveProps [⟨"brightness", "int", some (1, 100), none⟩])
        kwargs btv w = none) ∧
    (∀ w, async_turn_off
        (resolveProps [⟨"brightness", "int", some (1, 100), none⟩]) w = none) :=
  C9_no_power_prop [⟨"brightness", "int", some (1, 100), none⟩] (by decide)

/-- **C10**: after resolution the brightness property reference is
present iff the brightness scale is (both are set together only by the
value-range branch); hence the brightness accessor never converts with
an absent scale (it never raises), and it returns absent whenever the
raw device value is absent. -/
theorem C10_brightness_pair (props : List MIoTSpecProperty)
    (g : MIoTSpecProperty → Option Int) (vtb : (Int × Int) → Int → Int) :
    ((resolveProps props).prop_brightness = none ↔
      (resolveProps props).brightness_scale = none) ∧
    (∃ o, brightness (resolveProps props) g vtb = .ok o) ∧
    ((resolveProps props).prop_brightness.bind g = none →
      brightness (resolveProps props) g vtb = .ok none) := by
  have hinv := resolveProps_bright_inv props
  refine ⟨hinv, ?_, ?_⟩
  · cases hbind : (resolveProps props).prop_brightness.bind g with
    | none => exact ⟨none, by unfold brightness; rw [hbind]⟩
    | some v =>
      rcases hpb : (resolveProps props).prop_brightness with _ | pb
      · rw [hpb] at hbind
        simp at hbind
      · rcases hsc : (resolveProps props).brightness_scale with _ | sc
        · have h0 := hinv.mpr hsc
          rw [h0] at hpb
          exact absurd hpb (by simp)
        · exact ⟨some (vtb sc v), by unfold brightness; rw [hbind, hsc]⟩
  · intro hb
    unfold brightness
    rw [hb]

/-- **C4**: if the scan leaves the supported color-mode set empty, the
fallback prefers brightness-only when a brightness scale was
established, else on/off-only when a power property exists, else leaves
the set empty (while the entity is still constructed). -/
theorem C4_color_mode_fallback (props : List MIoTSpecProperty)
    (he : (scanProps props).supported_color_modes = ∅) :
    ((scanProps props).brightness_scale ≠ none →
      (resolveProps props).supported_color_modes = {ColorMode.BRIGHTNESS} ∧
      (resolveProps props).color_mode = some ColorMode.BRIGHTNESS) ∧
    ((scanProps props).brightness_scale = none →
      (scanProps props).prop_on ≠ none →
      (resolveProps props).supported_color_modes = {ColorMode.ONOFF} ∧
      (resolveProps props).color_mode = some ColorMode.ONOFF) ∧
    ((scanProps props).brightness_scale = none →
      (scanProps props).prop_on = none →
      (resolveProps props).supported_color_modes = ∅) := by
  have hinv := scanProps_bright_inv props
  refine ⟨?_, ?_, ?_⟩
  · intro hbs
    have hpb : (scanProps props).prop_brightness ≠ none :=
      fun h0 => hbs (hinv.mp h0)
    rcases Option.ne_none_iff_exists'.mp hpb with ⟨pb, hpb'⟩
    constructor <;> simp [resolveProps, he, hpb']
  · intro hbs hpo
    have hpb : (scanProps props).prop_brightness = none := hinv.mpr hbs
    rcases Option.ne_none_iff_exists'.mp hpo with ⟨po, hpo'⟩
    constructor <;> simp [resolveProps, he, hpb, hpo']
  · intro hbs hpo
    have hpb : (scanProps props).prop_brightness = none := hinv.mpr hbs
    simp [resolveProps, he, hpb, hpo]

theorem C4_color_mode_fallback_witness :
    (resolveProps [⟨"on", "bool", none, none⟩]).supported_color_modes
      = {ColorMode.ONOFF} ∧
    (resolveProps [⟨"on", "bool", none, none⟩]).color_mode
      = some ColorMode.ONOFF :=
  (C4_color_mode_fallback [⟨"on", "bool", none, none⟩] (by decide)).2.1
    (by decide) (by decide)

/-- **C6**: `is_on` reports true for an integer raw value exactly when it
equals 1, exposes a boolean raw value directly (a Python bool is an int
with `b == 1` equal to `b`), and writes preserve the representation
family: a `bool`-format power property is written `true`/`false` by
turn-on/turn-off, an `int`-format one is written `1`/`0`. -/
theorem C6_power_representation (n : Int) (bv : Bool) (s : LightState)
    (p : MIoTSpecProperty)
    (btv : (Int × Int) → Int → Int)
    (w : Option MIoTSpecProperty → WriteValue → Bool)
    (hs : s.prop_on = some p) :
    is_on (some (.int n)) = some (decide (n = 1)) ∧
    is_on (some (.bool bv)) = some bv ∧
    (p.format_ = "bool" →
      async_turn_on s emptyIntent btv w =
        some ⟨[(s.prop_on, .bool true)], w s.prop_on (.bool true),
              s.color_mode⟩ ∧
      async_turn_off s w = some (w s.prop_on (.bool false))) ∧
    (p.format_ = "int" →
      async_turn_on s emptyIntent btv w =
        some ⟨[(s.prop_on, .int 1)], w s.prop_on (.int 1), s.color_mode⟩ ∧
      async_turn_off s w = some (w s.prop_on (.int 0))) := by
  refine ⟨rfl, rfl, ?_, ?_⟩
  · intro hf
    refine ⟨?_, ?_⟩
    · simp [async_turn_on, hs, emptyIntent, hf]
    · simp [async_turn_off, hs, hf]
  · intro hf
    refine ⟨?_, ?_⟩
    · simp [async_turn_on, hs, emptyIntent, hf]
    · simp [async_turn_off, hs, hf]

theorem C6_power_representation_witness :
    is_on (some (.int 5)) = some (decide ((5 : Int) = 1)) ∧
    is_on (some (.bool true)) = some true ∧
    ((⟨"on", "int", none, none⟩ : MIoTSpecProperty).format_ = "bool" →
      async_turn_on (resolveProps [⟨"on", "int", none, none⟩]) emptyIntent
          (fun _ v => v) (fun _ _ => true) =
        some ⟨[((resolveProps [⟨"on", "int", none, none⟩]).prop_on,
                WriteValue.bool true)],
              (fun (_ : Option MIoTSpecProperty) (_ : WriteValue) => true)
                (resolveProps [⟨"on", "int", none, none⟩]).prop_on
                (WriteValue.bool true),
              (resolveProps [⟨"on", "int", none, none⟩]).color_mode⟩ ∧
      async_turn_off (resolveProps [⟨"on", "int", none, none⟩])
          (fun _ _ => true) =
        some ((fun (_ : Option MIoTSpecProperty) (_ : WriteValue) => true)
          (resolveProps [⟨"on", "int", none, none⟩]).prop_on
          (WriteValue.bool false))) ∧
    ((⟨"on", "int", none, none⟩ : MIoTSpecProperty).format_ = "int" →
      async_turn_on (resolveProps [⟨"on", "int", none, none⟩]) emptyIntent
          (fun _ v => v) (fun _ _ => true) =
        some ⟨[((resolveProps [⟨"on", "int", none, none⟩]).prop_on,
                WriteValue.int 1)],
              (fun (_ : Option MIoTSpecProperty) (_ : WriteValue) => true)
                (resolveProps [⟨"on", "int", none, none⟩]).prop_on
                (WriteValue.int 1),
              (resolveProps [⟨"on", "int", none, none⟩]).color_mode⟩ ∧
      async_turn_off (resolveProps [⟨"on", "int", none, none⟩])
          (fun _ _ => true) =
        some ((fun (_ : Option MIoTSpecProperty) (_ : WriteValue) => true)
          (resolveProps [⟨"on", "int", none, none⟩]).prop_on
          (WriteValue.int 0))) :=
  C6_power_representation 5 true (resolveProps [⟨"on", "int", none, none⟩])
    ⟨"on", "int", none, none⟩ (fun _ v => v) (fun _ _ => true) (by decide)

/-- **C7**: when the intent's effect description has no entry in the mode
table (`__get_mode_value` returns `None`), `async_turn_on` still issues
the mode write, passing the absent value to `set_property_async` rather
than failing or skipping the step; the mode write is the last write and
its outcome is the returned result. -/
theorem C7_unresolved_effect_write (s : LightState) (kwargs : WriteIntent)
    (d : String) (btv : (Int × Int) → Int → Int)
    (w : Option MIoTSpecProperty → WriteValue → Bool)
    (hon : s.prop_on ≠ none)
    (hb : kwargs.brightness = none)
    (he : kwargs.effect = some d)
    (hmv : get_mode_value s d = none) :
    ∃ res, async_turn_on s kwargs btv w = some res ∧
      res.writes.getLast? = some (s.prop_mode, WriteValue.absent) ∧
      res.result = w s.prop_mode WriteValue.absent := by
  rcases Option.ne_none_iff_exists'.mp hon with ⟨pon, hpon⟩
  rcases kwargs with ⟨ib, ict, irgb, ieff⟩
  simp only at hb he
  subst hb
  subst he
  cases ict <;> rcases irgb with _ | ⟨⟨r, gc, bc⟩⟩ <;>
    simp [async_turn_on, hpon, hmv]

theorem C7_unresolved_effect_write_witness :
    ∃ res,
      async_turn_on (resolveProps [⟨"on", "bool", none, none⟩])
        ⟨none, none, none, some "X"⟩ (fun _ v => v) (fun _ _ => false)
          = some res ∧
      res.writes.getLast? =
        some ((resolveProps [⟨"on", "bool", none, none⟩]).prop_mode,
              WriteValue.absent) ∧
      res.result = (fun _ _ => false)
        (resolveProps [⟨"on", "bool", none, none⟩]).prop_mode
        WriteValue.absent :=
  C7_unresolved_effect_write (resolveProps [⟨"on", "bool", none, none⟩])
    ⟨none, none, none, some "X"⟩ "X" (fun _ v => v) (fun _ _ => false)
    (by decide) (by decide) (by decide) (by decide)

/-- **C2**: whenever `async_turn_on` completes (power property present,
and a brightness scale present if the intent sets brightness), it writes
the power-on value first and then exactly the brightness,
color-temperature, RGB and effect writes the intent specifies, in that
fixed order, and the returned boolean is the result of the last write
issued — not a conjunction of all step results. -/
theorem C2_write_order_and_result (s : LightState) (kwargs : WriteIntent)
    (btv : (Int × Int) → Int → Int)
    (w : Option MIoTSpecProperty → WriteValue → Bool)
    (hon : s.prop_on ≠ none)
    (hbs : kwargs.brightness = none ∨ s.brightness_scale ≠ none) :
    ∃ res, async_turn_on s kwargs btv w = some res ∧
      res.writes = specWriteSequence s kwargs btv ∧
      (res.writes.map (fun q => w q.1 q.2)).getLast? = some res.result := by
  rcases Option.ne_none_iff_exists'.mp hon with ⟨pon, hpon⟩
  rcases kwargs with ⟨ib, ict, irgb, ieff⟩
  rcases hbs with hb | hbs
  · simp only at hb
    subst hb
    cases ict <;> rcases irgb with _ | ⟨⟨r, gc, bc⟩⟩ <;> cases ieff <;>
      simp [async_turn_on, specWriteSequence, hpon]
    all_goals exact ⟨_, _, ⟨rfl, rfl⟩, rfl⟩
  · rcases Option.ne_none_iff_exists'.mp hbs with ⟨sc, hsc⟩
    cases ib <;> cases ict <;> rcases irgb with _ | ⟨⟨r, gc, bc⟩⟩ <;>
      cases ieff <;>
      simp [async_turn_on, specWriteSequence, hpon, hsc]
    all_goals exact ⟨_, _, ⟨rfl, rfl⟩, rfl⟩

theorem C2_write_order_and_result_witness :
    ∃ res,
      async_turn_on (resolveProps [⟨"on", "bool", none, none⟩])
        ⟨none, some 2700, some (1, 2, 3), none⟩ (fun _ v => v)
        (fun _ _ => true) = some res ∧
      res.writes = specWriteSequence (resolveProps [⟨"on", "bool", none, none⟩])
        ⟨none, some 2700, some (1, 2, 3), none⟩ (fun _ v => v) ∧
      (res.writes.map (fun q => (fun _ _ => true) q.1 q.2)).getLast?
        = some res.result :=
  C2_write_order_and_result (resolveProps [⟨"on", "bool", none, none⟩])
    ⟨none, some 2700, some (1, 2, 3), none⟩ (fun _ v => v) (fun _ _ => true)
    (by decide) (Or.inl (by decide))
